import Mathlib

/-!
Shallow embedding of the falling-sand simulation core
(`cmd/sandbox/sandbox.go` of `jdavasligil/sandbox`, plus the diverging
revision of `ApplyPhysics` kept alongside it) and proofs about the
spec's claims.

Modelling conventions:
* Go `float32` position/velocity arithmetic is modelled over `ℚ`.  All
  quantities the claims compute with (gravity increments of `490/64`,
  clamped velocities, per-tick displacements, integer-valued rest
  cells) are dyadic rationals far inside the exactly-representable
  range of `float32`, so on the inputs used here the `ℚ` model computes
  the same values the Go program does.
* The boolean grids (`Grid.data []bool`, indexed `x + WIDTH*y`) are
  modelled as total functions `ℤ → ℤ → Bool`; `Grid.Set` / `Grid.Clear`
  become pointwise functional updates.  Flat-array bound questions are
  discussed where a claim raises them.
* Go's `int(f)` float-to-int conversion truncates toward zero
  (`truncZ`).
* Loops (`for col.IsSet(...) { pNextY -= 1 }` and the second revision's
  resolution loop) carry explicit fuel; every call site passes fuel
  strictly exceeding the number of iterations possible while the loop
  stays inside the 800-row domain.
-/

namespace Sandbox

/-- `WIDTH = 800` (compile-time constant of the program). -/
def WIDTH : ℕ := 800

/-- `HEIGHT = 800`. -/
def HEIGHT : ℕ := 800

/-- `SIMRATE = 64` simulation ticks per second. -/
def SIMRATE : ℕ := 64

/-- `DELTA = 1.0 / SIMRATE`. -/
def DELTA : ℚ := 1 / SIMRATE

/-- `MAXVEL = 4.0 * SIMRATE`. -/
def MAXVEL : ℚ := 4 * SIMRATE

/-- `GRAVITY = 490.0` px/s². -/
def GRAVITY : ℚ := 490

/-- `MAXSAND = WIDTH * HEIGHT / 2`. -/
def MAXSAND : ℕ := WIDTH * HEIGHT / 2

/-- Go's `int(f)` conversion: truncation toward zero. -/
def truncZ (q : ℚ) : ℤ := if 0 ≤ q then ⌊q⌋ else ⌈q⌉

/-- A boolean grid (`Grid.data`, read through cell coordinates). -/
def GridF : Type := ℤ → ℤ → Bool

/-- `Grid.Set`: mark one cell. -/
def setCell (g : GridF) (x y : ℤ) : GridF :=
  fun a b => if a = x ∧ b = y then true else g a b

/-- `Grid.Clear`: clear one cell. -/
def clearCell (g : GridF) (x y : ℤ) : GridF :=
  fun a b => if a = x ∧ b = y then false else g a b

/-- The all-`false` grid produced by `NewGrid`. -/
def emptyGrid : GridF := fun _ _ => false

/-- The `Position` component. -/
structure Position where
  x : ℚ
  y : ℚ
  deriving DecidableEq

/-- The `Velocity` component. -/
structure Velocity where
  x : ℚ
  y : ℚ
  deriving DecidableEq

/-- One entity of the store: its `Position`, `Velocity`, and whether
the `Falling` tag is present. -/
structure Particle where
  pos : Position
  vel : Velocity
  falling : Bool
  deriving DecidableEq

/-- The gravity clamp of `ApplyPhysics`
(`v.Y = float32(math.Min(float64(v.Y)+DELTA*GRAVITY, MAXVEL))`). -/
def gravV (vy : ℚ) : ℚ := min (vy + DELTA * GRAVITY) MAXVEL

/-- Tentative next X (`pNextX := p.X + DELTA*v.X`). -/
def tentX (pa : Particle) : ℚ := pa.pos.x + DELTA * pa.vel.x

/-- Tentative next Y (`pNextY := p.Y + DELTA*v.Y`, after the gravity
clamp has updated `v.Y`). -/
def tentY (pa : Particle) : ℚ := pa.pos.y + DELTA * gravV pa.vel.y

/-- The horizontal-boundary block of `ApplyPhysics`
(`if pNextX < 0 {...} else if pNextX >= WIDTH {...}`): velocity-X and
tentative-X after reflection/clamping. -/
def hCollide (vx px : ℚ) : ℚ × ℚ :=
  if px < 0 then (-vx, 0)
  else if (WIDTH : ℚ) ≤ px then (-vx, (WIDTH : ℚ) - 1)
  else (vx, px)

/-- Velocity-X after the horizontal-boundary block. -/
def reflectVX (pa : Particle) : ℚ := (hCollide pa.vel.x (tentX pa)).1

/-- Tentative X after the horizontal-boundary block. -/
def clampX (pa : Particle) : ℚ := (hCollide pa.vel.x (tentX pa)).2

/-- The floor-branch walk
`for col.IsSet(int(pNextX), int(pNextY)) { pNextY -= 1 }`, with fuel.
`x` is `int(pNextX)`; the walk starts at `pNextY = HEIGHT-1`. -/
def floorWalkQ (col : GridF) (x : ℤ) : ℕ → ℚ → ℚ
  | 0, y => y
  | n + 1, y => if col x (truncZ y) then floorWalkQ col x n (y - 1) else y

/-- The mid-air settlement resolution of the main revision
(`sandbox.go` lines 249–274): one neighbor inspection, no downward
re-scan.  Returns the resolved cell. -/
def resolveMid (col : GridF) (pNextX pNextY : ℚ) : ℤ × ℤ :=
  let l := truncZ (max (pNextX - 1) 0)
  let r := truncZ (min (pNextX + 1) ((WIDTH : ℚ) - 1))
  let x := truncZ pNextX
  let y := truncZ pNextY
  let setL := col l y
  let setR := col r y
  if setL && setR then (x, y - 1)
  else if !(setL || setR) then (if l % 2 = 0 then (l, y) else (r, y))
  else if setL then (r, y)
  else (l, y)

/-- The downward slide of the second revision of `ApplyPhysics`:
`for (y+1) < HEIGHT && !col.IsSet(x, y+1) { y++ }`, with fuel. -/
def slideDown (col : GridF) (x : ℤ) : ℕ → ℤ → ℤ
  | 0, y => y
  | n + 1, y =>
    if y + 1 < (HEIGHT : ℤ) ∧ col x (y + 1) = false then
      slideDown col x n (y + 1)
    else y

/-- The resolution loop of the second revision of `ApplyPhysics` (the
diverged revision shipped next to the main one): iterated neighbor
inspection; a successful choice breaks out through an inner downward
slide. -/
def resolveLoop (col : GridF) : ℕ → ℤ → ℤ → ℤ × ℤ
  | 0, x, y => (x, y)
  | n + 1, x, y =>
    let l := max (x - 1) 0
    let r := min (x + 1) ((WIDTH : ℤ) - 1)
    let setL := col l y
    let setR := col r y
    if setL && setR then
      let y2 := max (y - 1) 0
      if y2 = 0 then (x, y2)
      else if col x y2 = false then (x, slideDown col x HEIGHT y2)
      else resolveLoop col n x y2
    else
      let x2 :=
        if !(setL || setR) then (if l % 2 = 0 then l else r)
        else if setL then r
        else l
      if col x2 y = false then (x2, slideDown col x2 HEIGHT y)
      else resolveLoop col n x2 y

/-- The full mid-air resolution of the second revision: the loop
followed by the trailing downward slide. -/
def resolveMidV2 (col : GridF) (x y : ℤ) : ℤ × ℤ :=
  let p := resolveLoop col (HEIGHT + 1) x y
  (p.1, slideDown col p.1 HEIGHT p.2)

/-- The tail of the per-entity loop body (`sandbox.go` lines 276–279):
clear the occupancy cell of the old position, commit the new position,
set the occupancy cell of the new position. -/
def finishStep (pa : Particle) (grid : GridF) (v : Velocity) (x y : ℚ)
    (f : Bool) (col : GridF) : Particle × GridF × GridF :=
  let grid1 := clearCell grid (truncZ pa.pos.x) (truncZ pa.pos.y)
  let grid2 := setCell grid1 (truncZ x) (truncZ y)
  (⟨⟨x, y⟩, v, f⟩, grid2, col)

/-- One iteration of the `ApplyPhysics` loop of the main revision
(`sandbox.go` lines 219–279) for a single `Falling` entity: gravity
clamp, motion integration, horizontal reflection, vertical
ceiling/floor handling, mid-air settlement, and the occupancy-grid
clear/set pair. -/
def stepEntity (pa : Particle) (grid col : GridF) : Particle × GridF × GridF :=
  if tentY pa < 0 then
    finishStep pa grid ⟨reflectVX pa, -(gravV pa.vel.y)⟩ (clampX pa) 0 true col
  else if (HEIGHT : ℚ) ≤ tentY pa then
    let rest := floorWalkQ col (truncZ (clampX pa)) HEIGHT ((HEIGHT : ℚ) - 1)
    finishStep pa grid ⟨0, 0⟩ (clampX pa) rest false
      (setCell col (truncZ (clampX pa)) (truncZ rest))
  else if col (truncZ (clampX pa)) (truncZ (tentY pa)) then
    let rc := resolveMid col (clampX pa) (tentY pa)
    finishStep pa grid ⟨reflectVX pa, gravV pa.vel.y⟩ (rc.1 : ℚ) (rc.2 : ℚ) false
      (setCell col rc.1 rc.2)
  else
    finishStep pa grid ⟨reflectVX pa, gravV pa.vel.y⟩ (clampX pa) (tentY pa) true col

/-- `ApplyPhysics` over the whole store: the loop body runs for exactly
the entities carrying `Falling` (the query snapshot), in store order,
threading the two grids through. -/
def applyPhysics : List Particle → GridF → GridF → List Particle × GridF × GridF
  | [], g, c => ([], g, c)
  | p :: ps, g, c =>
    if p.falling then
      let r := stepEntity p g c
      let rest := applyPhysics ps r.2.1 r.2.2
      (r.1 :: rest.1, rest.2.1, rest.2.2)
    else
      let rest := applyPhysics ps g c
      (p :: rest.1, rest.2.1, rest.2.2)

/-- Repeated simulation ticks acting on a single-particle world with no
spawning: each tick runs the `ApplyPhysics` body on the particle while
it is `Falling` (a settled particle is no longer iterated). -/
def fallRun : ℕ → Particle × GridF × GridF → Particle × GridF × GridF
  | 0, s => s
  | n + 1, s =>
    fallRun n (if s.1.falling then stepEntity s.1 s.2.1 s.2.2 else s)

/-- Mouse event direction (`mouse.DirPress` / `mouse.DirRelease`;
`move` stands for any other direction value, e.g. `DirNone`). -/
inductive Dir where
  | press
  | release
  | move
  deriving DecidableEq, BEq

/-- The activity-flag update of the event handler (`sandbox.go` line
302): `source.isActive = (source.isActive || (e.Direction ==
mouse.DirPress)) && (e.Direction != mouse.DirRelease)`. -/
def updateActive (a : Bool) (d : Dir) : Bool :=
  (a || (d == Dir.press)) && !(d == Dir.release)

/-- A pointer event as it reaches the simulation loop. -/
structure MouseEv where
  x : ℚ
  y : ℚ
  dir : Dir

/-- The `Source` object: previous/current pointer position, derived
emission velocity, activity flag. -/
structure Source where
  prev : Position
  p : Position
  v : Velocity
  isActive : Bool

/-- The `mouse.Event` case of the `Simulate` event intake
(`sandbox.go` lines 297–302): shift current position into `prev`,
clamp the event coordinates into the domain, update the activity
flag. -/
def handleEvent (s : Source) (e : MouseEv) : Source :=
  { prev := s.p,
    p := ⟨max (min e.x (WIDTH : ℚ)) 0, max (min e.y (HEIGHT : ℚ)) 0⟩,
    v := s.v,
    isActive := updateActive s.isActive e.dir }

/-- Input to one simulation tick: the (at most one) pointer event
drained from the queue, and the four `rand.Float32()` draws `SpawnSand`
would make on this tick. -/
structure TickIn where
  ev : Option MouseEv
  r1 : ℚ
  r2 : ℚ
  r3 : ℚ
  r4 : ℚ

/-- The state owned by the simulation thread: entity store, occupancy
grid (`gridLocal`), settlement grid (`collision`), source, and the live
particle count. -/
structure SimState where
  particles : List Particle
  grid : GridF
  col : GridF
  source : Source
  sandCount : ℕ

/-- `SpawnSand` (`sandbox.go` lines 203–211): derive the emission
velocity from pointer displacement plus symmetric random jitter, and
create one entity at the source position carrying `Position`,
`Velocity` and `Falling`. -/
def spawnSand (src : Source) (r1 r2 r3 r4 : ℚ) : Particle × Source :=
  let vx := (src.p.x - src.prev.x) / DELTA / 2 + (r1 - r2) / DELTA / 2
  let vy := (src.p.y - src.prev.y) / DELTA / 2 + (r3 - r4) / DELTA / 2
  (⟨src.p, ⟨vx, vy⟩, true⟩, { src with v := ⟨vx, vy⟩ })

/-- The spawn guard of `Simulate` (`sandbox.go` line 308), exactly as
written in the code: note that it reads the occupancy grid at
`(int(source.p.X), int(source.p.X))` — the X coordinate twice. -/
def spawnCheck (s : SimState) : Bool :=
  s.source.isActive &&
    !(s.grid (truncZ s.source.p.x) (truncZ s.source.p.x)) &&
    decide (s.sandCount < MAXSAND)

/-- Event intake of one `Simulate` iteration: drain at most one
pointer event (lines 294–305). -/
def intake (s : SimState) (inp : TickIn) : SimState :=
  match inp.ev with
  | some e => { s with source := handleEvent s.source e }
  | none => s

/-- Spawn stage of one `Simulate` iteration (lines 307–312): if the
guard holds, run `SpawnSand`, increment the count, and mark the
occupancy cell at `(int(source.p.X), int(source.p.Y))`. -/
def spawnStage (s : SimState) (inp : TickIn) : SimState :=
  if spawnCheck s then
    let pr := spawnSand s.source inp.r1 inp.r2 inp.r3 inp.r4
    { s with
      particles := s.particles ++ [pr.1],
      source := pr.2,
      sandCount := s.sandCount + 1,
      grid := setCell s.grid (truncZ s.source.p.x) (truncZ s.source.p.y) }
  else s

/-- One iteration of the `Simulate` loop (`sandbox.go` lines 293–315):
drain at most one pointer event, conditionally spawn, run
`ApplyPhysics`.  (The publish step only copies the occupancy grid out
and mutates no simulation state.) -/
def tick (s : SimState) (inp : TickIn) : SimState :=
  let s2 := spawnStage (intake s inp) inp
  let r := applyPhysics s2.particles s2.grid s2.col
  { s2 with particles := r.1, grid := r.2.1, col := r.2.2 }

/-- The simulation loop over a finite stream of tick inputs. -/
def run (s : SimState) : List TickIn → SimState
  | [] => s
  | i :: is => run (tick s i) is

/-- Helper for computing single-particle trajectories: the particle and
settlement-grid components of one tick (the occupancy grid is never
read by `stepEntity`, so it can be dropped). -/
def stepPC (s : Particle × GridF) : Particle × GridF :=
  if s.1.falling then
    ((stepEntity s.1 emptyGrid s.2).1, (stepEntity s.1 emptyGrid s.2).2.2)
  else s

/-- Iterated `stepPC`. -/
def fallPC : ℕ → Particle × GridF → Particle × GridF
  | 0, s => s
  | n + 1, s => fallPC n (stepPC s)

/-! ### Helper lemmas -/

lemma truncZ_intCast (n : ℤ) : truncZ (n : ℚ) = n := by
  unfold truncZ
  split
  · exact Int.floor_intCast n
  · exact Int.ceil_intCast n

/-- The floor walk, started on an integer row `y`, lands on the lowest
row `r ≤ y` whose cell is unset while every row strictly between `r`
and `y` (inclusive) is set — provided some unset row is in fuel
range. -/
lemma floorWalkQ_spec (c : GridF) (x : ℤ) :
    ∀ (n : ℕ) (y : ℤ), (∃ j : ℤ, j ≤ y ∧ y - j < (n : ℤ) ∧ c x j = false) →
      ∃ r : ℤ, floorWalkQ c x n (y : ℚ) = (r : ℚ) ∧ r ≤ y ∧ c x r = false ∧
        (∀ t : ℤ, r < t → t ≤ y → c x t = true) ∧
        (∀ j : ℤ, j ≤ y → c x j = false → j ≤ r) := by
  intro n
  induction n with
  | zero =>
    intro y h
    obtain ⟨j, hj1, hj2, _⟩ := h
    omega
  | succ n ih =>
    intro y h
    obtain ⟨j, hj1, hj2, hj3⟩ := h
    by_cases hc : c x y = true
    · have hjy : j ≠ y := by
        intro e; rw [e] at hj3; rw [hj3] at hc; exact Bool.false_ne_true hc
      have hstep : floorWalkQ c x (n + 1) (y : ℚ) = floorWalkQ c x n ((y : ℚ) - 1) := by
        rw [show floorWalkQ c x (n + 1) (y : ℚ) =
            if c x (truncZ (y : ℚ)) then floorWalkQ c x n ((y : ℚ) - 1) else (y : ℚ) from rfl,
          truncZ_intCast, hc]
        simp
      have hcast : ((y : ℚ) - 1) = ((y - 1 : ℤ) : ℚ) := by push_cast; ring
      obtain ⟨r, hr1, hr2, hr3, hr4, hr5⟩ :=
        ih (y - 1) ⟨j, by omega, by omega, hj3⟩
      refine ⟨r, ?_, by omega, hr3, ?_, ?_⟩
      · rw [hstep, hcast, hr1]
      · intro t ht1 ht2
        rcases lt_or_eq_of_le ht2 with h' | h'
        · exact hr4 t ht1 (by omega)
        · rw [h']; exact hc
      · intro j' hj'1 hj'2
        have : j' ≠ y := by
          intro e; rw [e] at hj'2; rw [hj'2] at hc; exact Bool.false_ne_true hc
        exact hr5 j' (by omega) hj'2
    · have hcf : c x y = false := by
        cases hcc : c x y
        · rfl
        · exact absurd hcc hc
      refine ⟨y, ?_, le_refl y, hcf, ?_, ?_⟩
      · rw [show floorWalkQ c x (n + 1) (y : ℚ) =
            if c x (truncZ (y : ℚ)) then floorWalkQ c x n ((y : ℚ) - 1) else (y : ℚ) from rfl,
          truncZ_intCast, hcf]
        simp
      · intro t ht1 ht2; omega
      · intro j' hj'1 _; exact hj'1

/-- Branch lemma: ceiling reflection (`pNextY < 0`). -/
lemma stepEntity_ceil (pa : Particle) (g c : GridF) (hy : tentY pa < 0) :
    stepEntity pa g c =
      finishStep pa g ⟨reflectVX pa, -(gravV pa.vel.y)⟩ (clampX pa) 0 true c := by
  unfold stepEntity
  rw [if_pos hy]

/-- Branch lemma: floor settlement (`pNextY >= HEIGHT`). -/
lemma stepEntity_floor (pa : Particle) (g c : GridF) (hy : (HEIGHT : ℚ) ≤ tentY pa) :
    stepEntity pa g c =
      finishStep pa g ⟨0, 0⟩ (clampX pa)
        (floorWalkQ c (truncZ (clampX pa)) HEIGHT ((HEIGHT : ℚ) - 1)) false
        (setCell c (truncZ (clampX pa))
          (truncZ (floorWalkQ c (truncZ (clampX pa)) HEIGHT ((HEIGHT : ℚ) - 1)))) := by
  have hy0 : ¬ tentY pa < 0 := by
    have : (0 : ℚ) ≤ (HEIGHT : ℚ) := by norm_num
    intro h; linarith
  unfold stepEntity
  rw [if_neg hy0, if_pos hy]

/-- Branch lemma: mid-air settlement collision. -/
lemma stepEntity_mid (pa : Particle) (g c : GridF) (hy0 : ¬ tentY pa < 0)
    (hy1 : ¬ (HEIGHT : ℚ) ≤ tentY pa)
    (hc : c (truncZ (clampX pa)) (truncZ (tentY pa)) = true) :
    stepEntity pa g c =
      finishStep pa g ⟨reflectVX pa, gravV pa.vel.y⟩
        ((resolveMid c (clampX pa) (tentY pa)).1 : ℚ)
        ((resolveMid c (clampX pa) (tentY pa)).2 : ℚ) false
        (setCell c (resolveMid c (clampX pa) (tentY pa)).1
          (resolveMid c (clampX pa) (tentY pa)).2) := by
  unfold stepEntity
  rw [if_neg hy0, if_neg hy1, if_pos hc]

/-- Branch lemma: free fall. -/
lemma stepEntity_free (pa : Particle) (g c : GridF) (hy0 : ¬ tentY pa < 0)
    (hy1 : ¬ (HEIGHT : ℚ) ≤ tentY pa)
    (hc : c (truncZ (clampX pa)) (truncZ (tentY pa)) = false) :
    stepEntity pa g c =
      finishStep pa g ⟨reflectVX pa, gravV pa.vel.y⟩ (clampX pa) (tentY pa) true c := by
  unfold stepEntity
  rw [if_neg hy0, if_neg hy1, if_neg (by rw [hc]; exact Bool.false_ne_true)]

/-- The particle component of `finishStep`. -/
lemma finishStep_fst (pa : Particle) (g : GridF) (v : Velocity) (x y : ℚ)
    (f : Bool) (c : GridF) : (finishStep pa g v x y f c).1 = ⟨⟨x, y⟩, v, f⟩ := rfl

/-- The settlement-grid component of `finishStep`. -/
lemma finishStep_col (pa : Particle) (g : GridF) (v : Velocity) (x y : ℚ)
    (f : Bool) (c : GridF) : (finishStep pa g v x y f c).2.2 = c := rfl

/-- Setting a cell never unsets another. -/
lemma setCell_mono (g : GridF) (a b x y : ℤ) (h : g x y = true) :
    setCell g a b x y = true := by
  unfold setCell
  split
  · rfl
  · exact h

/-- `stepEntity` writes to the settlement grid only through
`Grid.Set`; it never clears a settlement cell. -/
lemma stepEntity_col_mono (pa : Particle) (g c : GridF) (x y : ℤ)
    (h : c x y = true) : (stepEntity pa g c).2.2 x y = true := by
  unfold stepEntity
  split
  · exact h
  · split
    · rw [finishStep_col]; exact setCell_mono _ _ _ _ _ h
    · split
      · rw [finishStep_col]; exact setCell_mono _ _ _ _ _ h
      · exact h

/-- The particle produced by `stepEntity` does not depend on the
occupancy grid (which the step only writes). -/
lemma stepEntity_fst_grid (pa : Particle) (g g' c : GridF) :
    (stepEntity pa g c).1 = (stepEntity pa g' c).1 := by
  unfold stepEntity
  split
  · rfl
  · split
    · rfl
    · split
      · rfl
      · rfl

/-- The settlement grid produced by `stepEntity` does not depend on
the occupancy grid. -/
lemma stepEntity_col_grid (pa : Particle) (g g' c : GridF) :
    (stepEntity pa g c).2.2 = (stepEntity pa g' c).2.2 := by
  unfold stepEntity
  split
  · rfl
  · split
    · rfl
    · split
      · rfl
      · rfl

/-- `ApplyPhysics` never clears a settlement cell. -/
lemma applyPhysics_col_mono :
    ∀ (ps : List Particle) (g c : GridF) (x y : ℤ), c x y = true →
      (applyPhysics ps g c).2.2 x y = true := by
  intro ps
  induction ps with
  | nil => intro g c x y h; exact h
  | cons p ps ih =>
    intro g c x y h
    unfold applyPhysics
    split
    · exact ih _ _ _ _ (stepEntity_col_mono p g c x y h)
    · exact ih _ _ _ _ h

/-- `ApplyPhysics` leaves an entity without the `Falling` tag exactly
where it was: same store slot, same components. -/
lemma applyPhysics_get_notFalling :
    ∀ (ps : List Particle) (g c : GridF) (k : ℕ) (pa : Particle),
      ps[k]? = some pa → pa.falling = false →
      (applyPhysics ps g c).1[k]? = some pa := by
  intro ps
  induction ps with
  | nil => intro g c k pa h _; simp at h
  | cons p ps ih =>
    intro g c k pa h hf
    match k with
    | 0 =>
      simp at h
      subst h
      unfold applyPhysics
      rw [if_neg (by rw [hf]; exact Bool.false_ne_true)]
      simp
    | k + 1 =>
      simp only [List.getElem?_cons_succ] at h
      unfold applyPhysics
      split
      · simpa using ih _ _ k pa h hf
      · simpa using ih _ _ k pa h hf

/-- `ApplyPhysics` preserves the length of the store. -/
lemma applyPhysics_length :
    ∀ (ps : List Particle) (g c : GridF),
      (applyPhysics ps g c).1.length = ps.length := by
  intro ps
  induction ps with
  | nil => intro g c; rfl
  | cons p ps ih =>
    intro g c
    unfold applyPhysics
    split
    · simpa using ih _ _
    · simpa using ih _ _

/-- `fallRun` projected to (particle, settlement grid) agrees with
`fallPC`. -/
lemma fallRun_proj :
    ∀ (n : ℕ) (p : Particle) (g c : GridF),
      ((fallRun n (p, g, c)).1, (fallRun n (p, g, c)).2.2) = fallPC n (p, c) := by
  intro n
  induction n with
  | zero => intro p g c; rfl
  | succ n ih =>
    intro p g c
    have key : fallRun (n + 1) (p, g, c) =
        fallRun n (if p.falling = true then stepEntity p g c else (p, g, c)) := rfl
    have key2 : fallPC (n + 1) (p, c) =
        fallPC n (if p.falling = true then
          ((stepEntity p emptyGrid c).1, (stepEntity p emptyGrid c).2.2) else (p, c)) := rfl
    by_cases hf : p.falling = true
    · rw [key, key2, if_pos hf, if_pos hf]
      have h3 : stepEntity p g c =
          ((stepEntity p g c).1, (stepEntity p g c).2.1, (stepEntity p g c).2.2) := rfl
      rw [h3, ih, stepEntity_fst_grid p g emptyGrid c, stepEntity_col_grid p g emptyGrid c]
    · rw [key, key2, if_neg hf, if_neg hf, ih]

/-- Splitting an iterated `fallPC`. -/
lemma fallPC_add (m n : ℕ) (s : Particle × GridF) :
    fallPC (m + n) s = fallPC n (fallPC m s) := by
  induction m generalizing s with
  | zero => rw [Nat.zero_add]; rfl
  | succ m ih =>
    have h1 : m + 1 + n = (m + n) + 1 := by omega
    rw [h1]
    show fallPC (m + n) (stepPC s) = fallPC n (fallPC m (stepPC s))
    exact ih (stepPC s)

/-- Event intake does not touch the store. -/
lemma intake_particles (s : SimState) (i : TickIn) :
    (intake s i).particles = s.particles := by
  unfold intake
  cases i.ev
  · rfl
  · rfl

/-- Event intake does not touch the settlement grid. -/
lemma intake_col (s : SimState) (i : TickIn) : (intake s i).col = s.col := by
  unfold intake
  cases i.ev
  · rfl
  · rfl

/-- The spawn stage does not touch the settlement grid. -/
lemma spawnStage_col (s : SimState) (i : TickIn) : (spawnStage s i).col = s.col := by
  unfold spawnStage
  split
  · rfl
  · rfl

/-- The spawn stage only ever appends to the store: existing slots are
unchanged. -/
lemma spawnStage_get (s : SimState) (i : TickIn) (k : ℕ) (pa : Particle)
    (h : s.particles[k]? = some pa) : (spawnStage s i).particles[k]? = some pa := by
  unfold spawnStage
  split
  · have hk : k < s.particles.length := (List.getElem?_eq_some_iff.1 h).1
    simpa [List.getElem?_append_left hk] using h
  · exact h

/-- One tick leaves a settled store slot unchanged. -/
lemma tick_get_notFalling (s : SimState) (i : TickIn) (k : ℕ) (pa : Particle)
    (h : s.particles[k]? = some pa) (hf : pa.falling = false) :
    (tick s i).particles[k]? = some pa := by
  unfold tick
  exact applyPhysics_get_notFalling _ _ _ k pa
    (spawnStage_get _ i k pa (by rw [intake_particles]; exact h)) hf

/-- One tick never clears a settlement cell. -/
lemma tick_col_mono (s : SimState) (i : TickIn) (x y : ℤ)
    (h : s.col x y = true) : (tick s i).col x y = true := by
  unfold tick
  exact applyPhysics_col_mono _ _ _ x y (by rw [spawnStage_col, intake_col]; exact h)

/-- Inside the horizontal domain, the boundary block is the identity. -/
lemma hCollide_inside (pa : Particle) (hx0 : ¬ tentX pa < 0)
    (hx1 : ¬ (WIDTH : ℚ) ≤ tentX pa) :
    reflectVX pa = pa.vel.x ∧ clampX pa = tentX pa := by
  unfold reflectVX clampX hCollide
  rw [if_neg hx0, if_neg hx1]
  exact ⟨rfl, rfl⟩

/-- Outside the horizontal domain, the boundary block negates the
velocity and clamps the coordinate. -/
lemma hCollide_outside (pa : Particle) (hx : tentX pa < 0 ∨ (WIDTH : ℚ) ≤ tentX pa) :
    reflectVX pa = -pa.vel.x ∧
      clampX pa = (if tentX pa < 0 then 0 else (WIDTH : ℚ) - 1) := by
  unfold reflectVX clampX hCollide
  rcases hx with h | h
  · rw [if_pos h, if_pos h]
    exact ⟨rfl, rfl⟩
  · have h0 : ¬ tentX pa < 0 := by
      have : (0 : ℚ) ≤ (WIDTH : ℚ) := by norm_num
      intro h'; linarith
    rw [if_neg h0, if_pos h, if_neg h0]
    exact ⟨rfl, rfl⟩

/-! ### Claim theorems -/

set_option maxRecDepth 20000 in
unseal Rat.mul Rat.add Rat.inv Rat.sub Rat.ofScientific in
/-- Claim C1.  The claim states that mid-air settlement resolution,
after the (both / neither / exactly-one) neighbor policy chooses a
column, slides down through contiguous unsettled cells to the lowest
resting spot.  The `ApplyPhysics` of the main revision (`sandbox.go`
lines 249–274) performs no such downward re-scan: with only cell
`(5,10)` settled and tentative position `(5.5, 10.5)`, the parity
policy picks column 4 at row 10 and the code settles the particle at
`(4,10)` — suspended in mid-air with `(4,11)` … `(4,799)` all
unsettled — whereas the second revision of `ApplyPhysics` (which the
spec declares the intended behavior) slides it down to `(4,799)`. -/
theorem c1_missing_downward_slide :
    resolveMid (setCell emptyGrid 5 10) (11/2) (21/2) = (4, 10) ∧
    (setCell emptyGrid 5 10) 4 11 = false ∧
    (stepEntity ⟨⟨11/2, 21259/2048⟩, ⟨0, 0⟩, true⟩ emptyGrid
      (setCell emptyGrid 5 10)).1.pos = ⟨4, 10⟩ ∧
    (stepEntity ⟨⟨11/2, 21259/2048⟩, ⟨0, 0⟩, true⟩ emptyGrid
      (setCell emptyGrid 5 10)).1.falling = false ∧
    resolveMidV2 (setCell emptyGrid 5 10) 5 10 = (4, 799) := by
  decide

unseal Rat.mul Rat.add Rat.inv Rat.sub Rat.ofScientific in
/-- Claim C2.  The claim states a spawn happens iff `isActive`, the
occupancy cell at `(floor x, floor y)` is clear, and the count is
below `MAXSAND`.  The spawn guard (`sandbox.go` line 308) instead
reads the occupancy grid at `(int(source.p.X), int(source.p.X))`:
with the source at `(2,5)` and exactly cell `(2,5)` occupied the guard
passes and the tick spawns onto the occupied cell, and with the source
at `(7,3)` and exactly cell `(7,7)` occupied the guard fails and the
tick spawns nothing although the target cell `(7,3)` is free. -/
theorem c2_spawn_check_bug :
    spawnCheck ⟨[], setCell emptyGrid 2 5, emptyGrid, ⟨⟨0, 0⟩, ⟨2, 5⟩, ⟨0, 0⟩, true⟩, 0⟩
      = true ∧
    setCell emptyGrid 2 5 2 5 = true ∧
    (tick ⟨[], setCell emptyGrid 2 5, emptyGrid, ⟨⟨0, 0⟩, ⟨2, 5⟩, ⟨0, 0⟩, true⟩, 0⟩
      ⟨none, 0, 0, 0, 0⟩).sandCount = 1 ∧
    spawnCheck ⟨[], setCell emptyGrid 7 7, emptyGrid, ⟨⟨0, 0⟩, ⟨7, 3⟩, ⟨0, 0⟩, true⟩, 0⟩
      = false ∧
    setCell emptyGrid 7 7 7 3 = false ∧
    (tick ⟨[], setCell emptyGrid 7 7, emptyGrid, ⟨⟨0, 0⟩, ⟨7, 3⟩, ⟨0, 0⟩, true⟩, 0⟩
      ⟨none, 0, 0, 0, 0⟩).sandCount = 0 := by
  decide

set_option maxRecDepth 20000 in
unseal Rat.mul Rat.add Rat.inv Rat.sub Rat.ofScientific in
/-- Claim C3.  Floor settlement: whenever the tentative next Y of a
`Falling` particle reaches or exceeds `HEIGHT` (and the target column
below row `HEIGHT` is not entirely settled), the step zeroes both
velocity components, removes `Falling`, and rests the particle at
`(clamped tentative X, r)` where `r` is the lowest row of that column
whose settlement cell is unset with every row below it settled; the
resolved cell is marked in the settlement grid.  In particular, in the
800×800 domain with gravity 490 and dt = 1/64, a particle dropped from
`(400, 0)` with zero velocity over empty grids settles on tick 217 at
`(400, 799)` with zero velocity, and cell `(400,799)` is marked. -/
theorem c3_floor_settlement :
    (∀ (pa : Particle) (g c : GridF), (HEIGHT : ℚ) ≤ tentY pa →
      (∃ j : ℤ, 0 ≤ j ∧ j < (HEIGHT : ℤ) ∧ c (truncZ (clampX pa)) j = false) →
      (stepEntity pa g c).1.vel = ⟨0, 0⟩ ∧
      (stepEntity pa g c).1.falling = false ∧
      ∃ r : ℤ,
        (stepEntity pa g c).1.pos = ⟨clampX pa, (r : ℚ)⟩ ∧
        0 ≤ r ∧ r < (HEIGHT : ℤ) ∧
        c (truncZ (clampX pa)) r = false ∧
        (∀ t : ℤ, r < t → t < (HEIGHT : ℤ) → c (truncZ (clampX pa)) t = true) ∧
        (stepEntity pa g c).2.2 = setCell c (truncZ (clampX pa)) r) ∧
    ((fallRun 217 (⟨⟨400, 0⟩, ⟨0, 0⟩, true⟩, emptyGrid, emptyGrid)).1 =
        ⟨⟨400, 799⟩, ⟨0, 0⟩, false⟩ ∧
      (fallRun 217 (⟨⟨400, 0⟩, ⟨0, 0⟩, true⟩, emptyGrid, emptyGrid)).2.2 400 799 = true) := by
  constructor
  · intro pa g c hy hex
    rw [stepEntity_floor pa g c hy]
    have hH : (HEIGHT : ℤ) = 800 := by norm_num [HEIGHT]
    have hHn : ((HEIGHT : ℕ) : ℤ) = 800 := by norm_num [HEIGHT]
    have hcast : ((HEIGHT : ℚ) - 1) = ((799 : ℤ) : ℚ) := by norm_num [HEIGHT]
    obtain ⟨j, hj0, hj1, hjf⟩ := hex
    obtain ⟨r, hr1, hr2, hr3, hr4, hr5⟩ :=
      floorWalkQ_spec c (truncZ (clampX pa)) HEIGHT 799 ⟨j, by omega, by omega, hjf⟩
    rw [finishStep_fst]
    refine ⟨rfl, rfl, r, ?_, ?_, by omega, hr3, ?_, ?_⟩
    · show Position.mk (clampX pa)
        (floorWalkQ c (truncZ (clampX pa)) HEIGHT ((HEIGHT : ℚ) - 1)) = _
      rw [hcast, hr1]
    · have := hr5 j (by omega) hjf
      omega
    · intro t ht1 ht2
      exact hr4 t ht1 (by omega)
    · rw [finishStep_col, hcast, hr1, truncZ_intCast]
  · have hproj := fallRun_proj 217 ⟨⟨400, 0⟩, ⟨0, 0⟩, true⟩ emptyGrid emptyGrid
    have hsplit : fallPC 217 ((⟨⟨400, 0⟩, ⟨0, 0⟩, true⟩ : Particle), emptyGrid) =
        fallPC 37 (fallPC 60 (fallPC 60 (fallPC 60
          ((⟨⟨400, 0⟩, ⟨0, 0⟩, true⟩ : Particle), emptyGrid)))) := by
      rw [show (217 : ℕ) = 180 + 37 from rfl, fallPC_add 180 37,
        show (180 : ℕ) = 120 + 60 from rfl, fallPC_add 120 60,
        show (120 : ℕ) = 60 + 60 from rfl, fallPC_add 60 60]
    have h1 : fallPC 60 ((⟨⟨400, 0⟩, ⟨0, 0⟩, true⟩ : Particle), emptyGrid) =
        ((⟨⟨400, 358629/2048⟩, ⟨0, 256⟩, true⟩ : Particle), emptyGrid) := by rfl
    have h2 : fallPC 60 ((⟨⟨400, 358629/2048⟩, ⟨0, 256⟩, true⟩ : Particle), emptyGrid) =
        ((⟨⟨400, 850149/2048⟩, ⟨0, 256⟩, true⟩ : Particle), emptyGrid) := by rfl
    have h3 : fallPC 60 ((⟨⟨400, 850149/2048⟩, ⟨0, 256⟩, true⟩ : Particle), emptyGrid) =
        ((⟨⟨400, 1341669/2048⟩, ⟨0, 256⟩, true⟩ : Particle), emptyGrid) := by rfl
    have h4 : fallPC 37 ((⟨⟨400, 1341669/2048⟩, ⟨0, 256⟩, true⟩ : Particle), emptyGrid) =
        ((⟨⟨400, 799⟩, ⟨0, 0⟩, false⟩ : Particle), setCell emptyGrid 400 799) := by rfl
    rw [hsplit, h1, h2, h3, h4] at hproj
    constructor
    · exact congrArg Prod.fst hproj
    · have hc := congrArg Prod.snd hproj
      simp only at hc
      rw [hc]
      decide

unseal Rat.mul Rat.add Rat.inv Rat.sub Rat.ofScientific in
/-- Witness for C3: a concrete floor hit (particle at `(400, 810)`,
empty grids) run through the theorem. -/
theorem c3_floor_settlement_witness :
    (stepEntity ⟨⟨400, 810⟩, ⟨0, 0⟩, true⟩ emptyGrid emptyGrid).1.vel = ⟨0, 0⟩ ∧
    (stepEntity ⟨⟨400, 810⟩, ⟨0, 0⟩, true⟩ emptyGrid emptyGrid).1.falling = false :=
  ⟨(c3_floor_settlement.1 ⟨⟨400, 810⟩, ⟨0, 0⟩, true⟩ emptyGrid emptyGrid
      (by decide) ⟨0, by decide, by decide, rfl⟩).1,
    (c3_floor_settlement.1 ⟨⟨400, 810⟩, ⟨0, 0⟩, true⟩ emptyGrid emptyGrid
      (by decide) ⟨0, by decide, by decide, rfl⟩).2.1⟩

unseal Rat.mul Rat.add Rat.inv Rat.sub Rat.ofScientific in
/-- Claim C4.  Free fall: when the tentative next position hits no
boundary and no settled cell, the step first clamps
`velocity.y := min(velocity.y + GRAVITY*dt, MAXVEL)` and then moves to
exactly `position + velocity*dt` componentwise (with the updated
`velocity.y`); the clamped velocity never exceeds `MAXVEL`, and from
any velocity already at most `MAXVEL` (in particular the output of any
previous tick) it does not decrease. -/
theorem c4_free_fall (pa : Particle) (g c : GridF)
    (hx0 : ¬ tentX pa < 0) (hx1 : ¬ (WIDTH : ℚ) ≤ tentX pa)
    (hy0 : ¬ tentY pa < 0) (hy1 : ¬ (HEIGHT : ℚ) ≤ tentY pa)
    (hc : c (truncZ (tentX pa)) (truncZ (tentY pa)) = false) :
    (stepEntity pa g c).1.vel = ⟨pa.vel.x, gravV pa.vel.y⟩ ∧
    (stepEntity pa g c).1.pos =
      ⟨pa.pos.x + DELTA * pa.vel.x, pa.pos.y + DELTA * gravV pa.vel.y⟩ ∧
    (stepEntity pa g c).1.falling = true ∧
    gravV pa.vel.y ≤ MAXVEL ∧
    (pa.vel.y ≤ MAXVEL → pa.vel.y ≤ gravV pa.vel.y) := by
  obtain ⟨hv, hx⟩ := hCollide_inside pa hx0 hx1
  rw [stepEntity_free pa g c hy0 hy1 (by rw [hx]; exact hc), finishStep_fst]
  refine ⟨by rw [hv], by rw [hx]; rfl, rfl, min_le_right _ _, ?_⟩
  intro h
  apply le_min
  · have : (0 : ℚ) ≤ DELTA * GRAVITY := by norm_num [DELTA, GRAVITY, SIMRATE]
    linarith
  · exact h

unseal Rat.mul Rat.add Rat.inv Rat.sub Rat.ofScientific in
/-- Witness for C4: a concrete in-domain free-fall tick. -/
theorem c4_free_fall_witness :
    (stepEntity ⟨⟨100, 100⟩, ⟨1, 2⟩, true⟩ emptyGrid emptyGrid).1.vel =
      ⟨1, gravV 2⟩ ∧
    (stepEntity ⟨⟨100, 100⟩, ⟨1, 2⟩, true⟩ emptyGrid emptyGrid).1.pos =
      ⟨100 + DELTA * 1, 100 + DELTA * gravV 2⟩ ∧
    (stepEntity ⟨⟨100, 100⟩, ⟨1, 2⟩, true⟩ emptyGrid emptyGrid).1.falling = true ∧
    gravV 2 ≤ MAXVEL ∧
    ((2 : ℚ) ≤ MAXVEL → (2 : ℚ) ≤ gravV 2) :=
  c4_free_fall ⟨⟨100, 100⟩, ⟨1, 2⟩, true⟩ emptyGrid emptyGrid
    (by decide) (by decide) (by decide) (by decide) rfl

unseal Rat.mul Rat.add Rat.inv Rat.sub Rat.ofScientific in
/-- Claim C5, counterexample.  The claim states both velocity
components are zero on every settling tick.  On a mid-air settlement
(tentative cell `(5,9)` settled, particle from rest at
`(5.3, 9.3)`) the particle settles with `velocity.y = 245/32 ≠ 0`:
the mid-air branch removes `Falling` without touching the velocity. -/
theorem c5_settling_velocity_counterexample :
    (stepEntity ⟨⟨53/10, 93/10⟩, ⟨0, 0⟩, true⟩ emptyGrid (setCell emptyGrid 5 9)).1.falling
      = false ∧
    (stepEntity ⟨⟨53/10, 93/10⟩, ⟨0, 0⟩, true⟩ emptyGrid (setCell emptyGrid 5 9)).1.vel.y
      = 245/32 ∧
    ((245 : ℚ)/32 ≠ 0) := by
  decide

unseal Rat.mul Rat.add Rat.inv Rat.sub Rat.ofScientific in
/-- Claim C5, amended.  The velocity produced by a physics tick is
fully characterized by: ceiling reflection negates the (gravity
clamped) vertical component; a floor settlement zeroes both
components; in every other case — mid-air settlement included — the
velocity is exactly the boundary-reflected horizontal component paired
with the gravity-clamped vertical component, never damped and not
zeroed. -/
theorem c5_velocity_policy (pa : Particle) (g c : GridF) :
    (tentY pa < 0 →
      (stepEntity pa g c).1.vel = ⟨reflectVX pa, -(gravV pa.vel.y)⟩ ∧
      (stepEntity pa g c).1.falling = true) ∧
    ((HEIGHT : ℚ) ≤ tentY pa →
      (stepEntity pa g c).1.vel = ⟨0, 0⟩ ∧
      (stepEntity pa g c).1.falling = false) ∧
    (¬ tentY pa < 0 → ¬ (HEIGHT : ℚ) ≤ tentY pa →
      (stepEntity pa g c).1.vel = ⟨reflectVX pa, gravV pa.vel.y⟩) := by
  refine ⟨?_, ?_, ?_⟩
  · intro hy
    rw [stepEntity_ceil pa g c hy, finishStep_fst]
    exact ⟨rfl, rfl⟩
  · intro hy
    rw [stepEntity_floor pa g c hy, finishStep_fst]
    exact ⟨rfl, rfl⟩
  · intro hy0 hy1
    by_cases hcol : c (truncZ (clampX pa)) (truncZ (tentY pa)) = true
    · rw [stepEntity_mid pa g c hy0 hy1 hcol, finishStep_fst]
    · have hcf : c (truncZ (clampX pa)) (truncZ (tentY pa)) = false := by
        cases hb : c (truncZ (clampX pa)) (truncZ (tentY pa))
        · rfl
        · exact absurd hb hcol
      rw [stepEntity_free pa g c hy0 hy1 hcf, finishStep_fst]

unseal Rat.mul Rat.add Rat.inv Rat.sub Rat.ofScientific in
/-- Witness for C5: the in-domain case of the velocity policy at a
concrete mid-air-settling input. -/
theorem c5_velocity_policy_witness :
    (stepEntity ⟨⟨53/10, 93/10⟩, ⟨3, 0⟩, true⟩ emptyGrid (setCell emptyGrid 5 9)).1.vel =
      ⟨reflectVX ⟨⟨53/10, 93/10⟩, ⟨3, 0⟩, true⟩, gravV 0⟩ :=
  (c5_velocity_policy ⟨⟨53/10, 93/10⟩, ⟨3, 0⟩, true⟩ emptyGrid (setCell emptyGrid 5 9)).2.2
    (by decide) (by decide)

unseal Rat.mul Rat.add Rat.inv Rat.sub Rat.ofScientific in
/-- Claim C6.  Once a particle's `Falling` tag is removed its store
slot — position included — never changes again over any number of
simulation ticks, and every settlement-grid cell that is set stays set
forever. -/
theorem c6_settled_frozen :
    ∀ (ins : List TickIn) (s : SimState) (k : ℕ) (pa : Particle),
      s.particles[k]? = some pa → pa.falling = false →
      (run s ins).particles[k]? = some pa ∧
        (∀ x y : ℤ, s.col x y = true → (run s ins).col x y = true) := by
  intro ins
  induction ins with
  | nil => intro s k pa h hf; exact ⟨h, fun x y hc => hc⟩
  | cons i is ih =>
    intro s k pa h hf
    have hrec := ih (tick s i) k pa (tick_get_notFalling s i k pa h hf) hf
    exact ⟨hrec.1, fun x y hc => hrec.2 x y (tick_col_mono s i x y hc)⟩

unseal Rat.mul Rat.add Rat.inv Rat.sub Rat.ofScientific in
/-- Witness for C6: one tick over a store holding one settled
particle, with one settled cell. -/
theorem c6_settled_frozen_witness :
    (run ⟨[⟨⟨5, 5⟩, ⟨0, 0⟩, false⟩], emptyGrid, setCell emptyGrid 3 4,
        ⟨⟨0, 0⟩, ⟨0, 0⟩, ⟨0, 0⟩, false⟩, 1⟩
      [⟨none, 0, 0, 0, 0⟩]).particles[0]? = some ⟨⟨5, 5⟩, ⟨0, 0⟩, false⟩ ∧
    (run ⟨[⟨⟨5, 5⟩, ⟨0, 0⟩, false⟩], emptyGrid, setCell emptyGrid 3 4,
        ⟨⟨0, 0⟩, ⟨0, 0⟩, ⟨0, 0⟩, false⟩, 1⟩
      [⟨none, 0, 0, 0, 0⟩]).col 3 4 = true :=
  ⟨(c6_settled_frozen [⟨none, 0, 0, 0, 0⟩]
      ⟨[⟨⟨5, 5⟩, ⟨0, 0⟩, false⟩], emptyGrid, setCell emptyGrid 3 4,
        ⟨⟨0, 0⟩, ⟨0, 0⟩, ⟨0, 0⟩, false⟩, 1⟩ 0 ⟨⟨5, 5⟩, ⟨0, 0⟩, false⟩ rfl rfl).1,
    (c6_settled_frozen [⟨none, 0, 0, 0, 0⟩]
      ⟨[⟨⟨5, 5⟩, ⟨0, 0⟩, false⟩], emptyGrid, setCell emptyGrid 3 4,
        ⟨⟨0, 0⟩, ⟨0, 0⟩, ⟨0, 0⟩, false⟩, 1⟩ 0 ⟨⟨5, 5⟩, ⟨0, 0⟩, false⟩ rfl rfl).2
      3 4 (by decide)⟩

unseal Rat.mul Rat.add Rat.inv Rat.sub Rat.ofScientific in
/-- Claim C7, counterexample.  The claim states no two distinct live
particles ever share an integer cell.  Two falling particles — at
`(10.9, 50)` moving right and at `(11.9, 50)` moving left, over empty
grids — both end the tick at position `(11.15, 50.1196…)`: the store
then holds two distinct live particles in cell `(11, 50)`.  Falling
particles are never collision-tested against each other. -/
theorem c7_shared_cell_counterexample :
    ((applyPhysics
        [⟨⟨109/10, 50⟩, ⟨16, 0⟩, true⟩, ⟨⟨119/10, 50⟩, ⟨-48, 0⟩, true⟩]
        emptyGrid emptyGrid).1.map
      (fun q => (truncZ q.pos.x, truncZ q.pos.y, q.falling))) =
      [(11, 50, true), (11, 50, true)] := by
  decide

unseal Rat.mul Rat.add Rat.inv Rat.sub Rat.ofScientific in
/-- Claim C7, amended.  What does hold of landing cells: the
floor-branch settlement walk always rests the particle on a cell not
previously marked in the settlement grid (provided its column has an
unset cell), and marks exactly that cell. -/
theorem c7_floor_walk_unclaimed (pa : Particle) (g c : GridF)
    (hy : (HEIGHT : ℚ) ≤ tentY pa)
    (hex : ∃ j : ℤ, 0 ≤ j ∧ j < (HEIGHT : ℤ) ∧ c (truncZ (clampX pa)) j = false) :
    (stepEntity pa g c).1.falling = false ∧
    ∃ r : ℤ, (stepEntity pa g c).1.pos.y = (r : ℚ) ∧
      c (truncZ (clampX pa)) r = false ∧
      (stepEntity pa g c).2.2 (truncZ (clampX pa)) r = true := by
  rw [stepEntity_floor pa g c hy]
  have hH : (HEIGHT : ℤ) = 800 := by norm_num [HEIGHT]
  have hHn : ((HEIGHT : ℕ) : ℤ) = 800 := by norm_num [HEIGHT]
  have hcast : ((HEIGHT : ℚ) - 1) = ((799 : ℤ) : ℚ) := by norm_num [HEIGHT]
  obtain ⟨j, hj0, hj1, hjf⟩ := hex
  obtain ⟨r, hr1, hr2, hr3, hr4, hr5⟩ :=
    floorWalkQ_spec c (truncZ (clampX pa)) HEIGHT 799 ⟨j, by omega, by omega, hjf⟩
  rw [finishStep_fst, finishStep_col]
  refine ⟨rfl, r, ?_, hr3, ?_⟩
  · show floorWalkQ c (truncZ (clampX pa)) HEIGHT ((HEIGHT : ℚ) - 1) = _
    rw [hcast, hr1]
  · rw [hcast, hr1, truncZ_intCast]
    unfold setCell
    rw [if_pos ⟨rfl, rfl⟩]

unseal Rat.mul Rat.add Rat.inv Rat.sub Rat.ofScientific in
/-- Witness for C7's amended theorem: a floor hit over a column whose
bottom cell is already settled. -/
theorem c7_floor_walk_unclaimed_witness :
    (stepEntity ⟨⟨10, 805⟩, ⟨0, 0⟩, true⟩ emptyGrid (setCell emptyGrid 10 799)).1.falling
      = false :=
  (c7_floor_walk_unclaimed ⟨⟨10, 805⟩, ⟨0, 0⟩, true⟩ emptyGrid (setCell emptyGrid 10 799)
    (by decide) ⟨0, by decide, by decide, by decide⟩).1

unseal Rat.mul Rat.add Rat.inv Rat.sub Rat.ofScientific in
/-- Claim C8, counterexample.  The claim states that whenever the
tentative X leaves `[0, WIDTH)` the velocity-X is negated and the
particle remains `Falling` on that tick.  In the corner case where the
same tick also reaches the floor (here from `(0.5, 799.9)` with
velocity `(-64, 248.34375)`), the floor branch wins: `Falling` is
removed and velocity-X is zeroed, not negated. -/
theorem c8_corner_counterexample :
    tentX ⟨⟨1/2, 7999/10⟩, ⟨-64, 7949/32⟩, true⟩ < 0 ∧
    (stepEntity ⟨⟨1/2, 7999/10⟩, ⟨-64, 7949/32⟩, true⟩ emptyGrid emptyGrid).1.falling = false ∧
    (stepEntity ⟨⟨1/2, 7999/10⟩, ⟨-64, 7949/32⟩, true⟩ emptyGrid emptyGrid).1.vel.x ≠
      -(-64 : ℚ) := by
  decide

unseal Rat.mul Rat.add Rat.inv Rat.sub Rat.ofScientific in
/-- Claim C8, amended.  If the tentative X leaves `[0, WIDTH)` then
velocity-X is negated and the tentative X is clamped to `0` or
`WIDTH-1`; the particle remains `Falling` provided the same tick does
not also settle it vertically (tentative Y below `HEIGHT`, and the
tentative cell unsettled when Y is in range).  The horizontal boundary
itself never causes settlement. -/
theorem c8_horizontal_reflection (pa : Particle) (g c : GridF)
    (hx : tentX pa < 0 ∨ (WIDTH : ℚ) ≤ tentX pa)
    (hy1 : ¬ (HEIGHT : ℚ) ≤ tentY pa)
    (hc : ¬ tentY pa < 0 → c (truncZ (clampX pa)) (truncZ (tentY pa)) = false) :
    (stepEntity pa g c).1.vel.x = -pa.vel.x ∧
    (stepEntity pa g c).1.pos.x = (if tentX pa < 0 then 0 else (WIDTH : ℚ) - 1) ∧
    (stepEntity pa g c).1.falling = true := by
  obtain ⟨hv, hxc⟩ := hCollide_outside pa hx
  by_cases hy0 : tentY pa < 0
  · rw [stepEntity_ceil pa g c hy0, finishStep_fst]
    exact ⟨hv, by rw [hxc], rfl⟩
  · rw [stepEntity_free pa g c hy0 hy1 (hc hy0), finishStep_fst]
    exact ⟨hv, by rw [hxc], rfl⟩

unseal Rat.mul Rat.add Rat.inv Rat.sub Rat.ofScientific in
/-- Witness for C8's amended theorem: a left-wall bounce in mid-air. -/
theorem c8_horizontal_reflection_witness :
    (stepEntity ⟨⟨0, 100⟩, ⟨-64, 0⟩, true⟩ emptyGrid emptyGrid).1.vel.x = -(-64 : ℚ) ∧
    (stepEntity ⟨⟨0, 100⟩, ⟨-64, 0⟩, true⟩ emptyGrid emptyGrid).1.pos.x =
      (if tentX ⟨⟨0, 100⟩, ⟨-64, 0⟩, true⟩ < 0 then 0 else (WIDTH : ℚ) - 1) ∧
    (stepEntity ⟨⟨0, 100⟩, ⟨-64, 0⟩, true⟩ emptyGrid emptyGrid).1.falling = true :=
  c8_horizontal_reflection ⟨⟨0, 100⟩, ⟨-64, 0⟩, true⟩ emptyGrid emptyGrid
    (Or.inl (by decide)) (by decide) (fun _ => rfl)

/-- Claim C9.  One pointer event updates the activity flag to
`(old ∨ press) ∧ ¬release`: a press latches it true, a release forces
it false regardless of a latched press, any other event leaves it
unchanged; hence a press followed by a release as separate events
reads true for (at least) the spawn decision of the press's tick and
false from the release's tick onward.  The event intake installs
exactly this update into the source. -/
theorem c9_activity_latch :
    (∀ a : Bool, updateActive a Dir.press = true) ∧
    (∀ a : Bool, updateActive a Dir.release = false) ∧
    (∀ a : Bool, updateActive a Dir.move = a) ∧
    (∀ a : Bool, updateActive (updateActive a Dir.press) Dir.release = false) ∧
    (∀ (s : Source) (e : MouseEv),
      (handleEvent s e).isActive = updateActive s.isActive e.dir) := by
  refine ⟨by decide, by decide, by decide, by decide, fun s e => rfl⟩

end Sandbox
